import Mathlib

/-!
Shallow embedding of `src/server.js` (a phishing-classification HTTP relay)
and proofs of its specified properties.

JavaScript numbers are modelled by `JNum` (a finite rational, NaN, or a signed
infinity); JavaScript values reachable from parsed JSON and from property
access are modelled by `Json` (`Json.undefined` is the `undefined` produced by a missing
property, never by `JSON.parse` itself).  The express handler for
`POST /api/phishing` is modelled by the pure function `phishingHandler`, whose
result records the HTTP status, the response body and the payload of the
upstream model call when one is made (`none` = no external call attempted).
`JSON.parse` and the network are external collaborators and enter as oracle
parameters (`parse`, `upstreamText`, `probe`).
-/

/-- The JavaScript number domain: a finite value (modelled as a rational,
which is exact for every value the clamp logic manipulates), NaN, or an
infinity. -/
inductive JNum where
  | fin (q : ℚ)
  | nan
  | posInf
  | negInf
deriving DecidableEq

/-- `Number.isFinite` on a JavaScript number. -/
def JNum.isFinite : JNum → Bool
  | .fin _ => true
  | _ => false

/-- JavaScript values as seen by the relay: everything `JSON.parse` can
produce, plus a constructor for the `undefined` that property access on a value
lacking the property yields. -/
inductive Json where
  | null
  | undefined
  | bool (b : Bool)
  | num (x : JNum)
  | str (s : String)
  | arr (elems : List Json)
  | obj (fields : List (String × Json))

/-- `Array.isArray`. -/
def Json.isArr : Json → Bool
  | .arr _ => true
  | _ => false

/-- The element list of an array value (only ever used under an
`Array.isArray` guard, as in the source; `[]` elsewhere). -/
def Json.elems : Json → List Json
  | .arr xs => xs
  | _ => []

/-- Optional-chained property access `v?.k`: the property's value on an
object that has it, `undefined` on `null`/`undefined`, on primitives and on
objects lacking the property (none of the accessed names is a built-in of
primitives). -/
def jget (j : Json) (k : String) : Json :=
  match j with
  | .obj fs =>
    match fs.lookup k with
    | some v => v
    | none => .undefined
  | _ => .undefined

/-- JavaScript truthiness. -/
def truthy : Json → Bool
  | .null => false
  | .undefined => false
  | .bool b => b
  | .num (.fin q) => decide (q ≠ 0)
  | .num .nan => false
  | .num .posInf => true
  | .num .negInf => true
  | .str s => decide (s ≠ "")
  | .arr _ => true
  | .obj _ => true

/-- The nullish-coalescing operator `a ?? b`. -/
def nullish (a b : Json) : Json :=
  match a with
  | .null => b
  | .undefined => b
  | x => x

/-- Value of a list of decimal digit characters. -/
def digitsToNat (cs : List Char) : ℕ :=
  cs.foldl (fun a c => a * 10 + (c.toNat - 48)) 0

/-- A decimal numeral `digits[.digits]` as a rational, `none` when the
characters are not of that shape. -/
def decNumeral (cs : List Char) : Option ℚ :=
  match cs.span (·.isDigit) with
  | (ip, rest) =>
    match rest with
    | [] => if ip.isEmpty then none else some (mkRat (digitsToNat ip) 1)
    | '.' :: fp =>
      if fp.all (·.isDigit) && (!ip.isEmpty || !fp.isEmpty) then
        some (mkRat (digitsToNat (ip ++ fp)) (10 ^ fp.length))
      else none
    | _ => none

/-- Unsigned part of string-to-number conversion. -/
def strToNumCore (cs : List Char) (neg : Bool) : JNum :=
  if cs = "Infinity".data then (if neg then .negInf else .posInf)
  else
    match decNumeral cs with
    | some q => .fin (if neg then -q else q)
    | none => .nan

/-- Whitespace trimming on both ends of a character list. -/
def jsTrim (cs : List Char) : List Char :=
  ((cs.dropWhile Char.isWhitespace).reverse.dropWhile Char.isWhitespace).reverse

/-- JavaScript `Number(string)`: trimmed empty string is `0`, an optionally
signed decimal numeral or `Infinity` is its value, anything else is NaN
(hexadecimal and exponent forms, which no property here exercises, are
modelled as NaN). -/
def strToNum (s : String) : JNum :=
  match jsTrim s.data with
  | [] => .fin 0
  | '+' :: cs => strToNumCore cs false
  | '-' :: cs => strToNumCore cs true
  | cs => strToNumCore cs false

/-- JavaScript `Number(v)` on the values of this model.  Arrays and objects
convert through their string form; that is `0` for the empty array and NaN
for plain objects.  Non-empty arrays are modelled as NaN (JavaScript converts
some single-element arrays to numbers, a case nothing here exercises). -/
def toNumber : Json → JNum
  | .null => .fin 0
  | .undefined => .nan
  | .bool b => .fin (if b then 1 else 0)
  | .num x => x
  | .str s => strToNum s
  | .arr [] => .fin 0
  | .arr (_ :: _) => .nan
  | .obj _ => .nan

/-- `Math.max` on two finite numbers (the only way the source calls it). -/
def jsMax (a b : ℚ) : ℚ := if a ≤ b then b else a

/-- `Math.min` on two finite numbers (the only way the source calls it). -/
def jsMin (a b : ℚ) : ℚ := if a ≤ b then a else b

/-- `clamp01` from `src/server.js` lines 154-158: `x = Number(n)`; `0` when
`x` is not finite, otherwise `Math.max(0, Math.min(1, x))`. -/
def clamp01 (n : Json) : ℚ :=
  match toNumber n with
  | .fin q => jsMax 0 (jsMin 1 q)
  | _ => 0

example : clamp01 (.num (.fin 2)) = 1 := by decide
example : clamp01 (.num .nan) = 0 := by decide
example : clamp01 (.str "0.25") = mkRat 1 4 := by decide
example : clamp01 .undefined = 0 := by decide

/-- Normalization of the `reasons` field, from `src/server.js` line 163:
`Array.isArray(r?.reasons) ? r.reasons.slice(0, 8) : []`. -/
def normReasons (j : Json) : Json :=
  match j with
  | .arr xs => .arr (xs.take 8)
  | _ => .arr []

/-- Normalization of one element of `results`, from `src/server.js`
lines 159-164. -/
def normalizeResult (r : Json) : Json :=
  .obj [
    ("id", jget r "id"),
    ("isPhishing", .bool (truthy (jget r "isPhishing"))),
    ("confidence", .num (.fin (clamp01 (jget r "confidence")))),
    ("reasons", normReasons (jget r "reasons"))
  ]

/-- The defensive per-email mapping from `src/server.js` lines 123-129. -/
def compactEmail (e : Json) : Json :=
  .obj [
    ("id", jget e "id"),
    ("sender", nullish (jget e "sender") (.str "")),
    ("senderEmail", nullish (jget e "senderEmail") (.str "")),
    ("subject", nullish (jget e "subject") (.str "")),
    ("body", nullish (jget e "snippet") (.str ""))
  ]

/-- JavaScript property assignment `j[k] = v` on an object: updates the
property in place when present (key order preserved), appends it otherwise.
On non-objects the write is a no-op for our purposes (the source only
assigns to a value already known to carry an array-valued property). -/
def setField (j : Json) (k : String) (v : Json) : Json :=
  match j with
  | .obj fs =>
    if fs.any (fun kv => kv.1 == k) then
      .obj (fs.map fun kv => if kv.1 = k then (k, v) else kv)
    else
      .obj (fs ++ [(k, v)])
  | _ => j

/-- `req.body || {}` from `src/server.js` line 120. -/
def processedBody (reqBody : Json) : Json :=
  if truthy reqBody then reqBody else .obj []

/-- Observable outcome of one `POST /api/phishing` request: HTTP status,
response body, and the payload of the upstream `generateContent` call when
one was issued (`none` = no external call attempted). -/
structure HandlerResult where
  status : ℕ
  body : Json
  call : Option Json

/-- The `POST /api/phishing` handler, `src/server.js` lines 115-171.
`apiKey` is whether `GOOGLE_API_KEY` is configured, `model` the bound model
handle, `reqBody` the parsed request body, `parse` the `JSON.parse` oracle
and `upstreamText` the raw text of the upstream response.  The serialized
prompt turns are external formatting; the call payload is recorded as the
compacted email batch. -/
def phishingHandler (apiKey : Bool) (model : Option String) (reqBody : Json)
    (parse : String → Option Json) (upstreamText : String) : HandlerResult :=
  if apiKey = false then
    ⟨503, .obj [("error", .str "GOOGLE_API_KEY not set on server")], none⟩
  else if model = none then
    ⟨503, .obj [("error", .str "Model not initialized yet. Try again in a moment.")], none⟩
  else
    let emails := jget (processedBody reqBody) "emails"
    if emails.isArr = false then
      ⟨400, .obj [("error", .str "Expected \x7b emails: [...] \x7d")], none⟩
    else
      let call := Json.obj [("emails", .arr (emails.elems.map compactEmail))]
      match parse upstreamText with
      | none =>
        ⟨502, .obj [("error", .str "Model returned non-JSON"),
                    ("raw", .str (upstreamText.take 1000))], some call⟩
      | some parsed =>
        if truthy parsed = false ∨ (jget parsed "results").isArr = false then
          ⟨502, .obj [("error", .str "Malformed JSON from model"),
                      ("parsed", parsed)], some call⟩
        else
          ⟨200,
           setField parsed "results"
             (.arr ((jget parsed "results").elems.map normalizeResult)),
           some call⟩

/-- The fallback candidate list, `src/server.js` lines 37-44. -/
def CANDIDATE_MODELS : List String :=
  ["gemini-1.5-flash-latest",
   "gemini-1.5-flash",
   "gemini-1.5-pro-latest",
   "gemini-1.5-pro",
   "gemini-1.0-pro",
   "gemini-pro"]

/-- The process-wide mutable pair of `src/server.js` lines 46-47:
`MODEL_IN_USE` and the bound model handle `model` (the handle is modelled by
the identifier it was created from). -/
structure ModelState where
  modelInUse : Option String
  model : Option String
deriving DecidableEq

/-- `tryModel`, `src/server.js` lines 50-64: one liveness probe of a named
model; the network outcome (response parses as JSON and carries
`"ok": true`) is the oracle `probe`.  Returns the handle on success, `null`
on any failure. -/
def tryModel (probe : String → Bool) (name : String) : Option String :=
  if probe name then some name else none

/-- The candidate loop of `initModel`, `src/server.js` lines 73-81, started
from state `s`.  Returns the names probed, in order, and the list of
successive states produced by the assignments `MODEL_IN_USE = candidate;
model = m;` (empty when every probe fails: a failed probe assigns
nothing). -/
def initLoop (probe : String → Bool) : List String → ModelState → List String × List ModelState
  | [], _ => ([], [])
  | c :: rest, s =>
    match tryModel probe c with
    | some m => ([c], [{ s with modelInUse := some c },
                       { modelInUse := some c, model := some m }])
    | none =>
      (c :: (initLoop probe rest s).1, (initLoop probe rest s).2)

/-- `initModel`, `src/server.js` lines 66-83.  `genAI` is whether the API
client exists (a credential was configured), `pref` the value of
`MODEL_IN_USE` after line 46 (`GEMINI_MODEL || null`).  Returns the probed
names in order and the state trace starting from the initial state
`⟨pref, none⟩`. -/
def initModel (probe : String → Bool) (genAI : Bool) (pref : Option String) :
    List String × List ModelState :=
  let s0 : ModelState := ⟨pref, none⟩
  if genAI = false then ([], [s0])
  else
    match pref with
    | some p =>
      if p = "" then
        ((initLoop probe CANDIDATE_MODELS s0).1,
         s0 :: (initLoop probe CANDIDATE_MODELS s0).2)
      else
        match tryModel probe p with
        | some m => ([p], [s0, { s0 with model := some m }])
        | none =>
          (p :: (initLoop probe CANDIDATE_MODELS s0).1,
           s0 :: (initLoop probe CANDIDATE_MODELS s0).2)
    | none =>
      ((initLoop probe CANDIDATE_MODELS s0).1,
       s0 :: (initLoop probe CANDIDATE_MODELS s0).2)

/-! ## Properties -/

/-- C1: confidence normalization.  For a JavaScript number input `n` to
`clamp01`: if `n` is not finite the clamped confidence is `0`, otherwise it
is `min(1, max(0, n))`. -/
theorem clamp01_spec (x : JNum) :
    (x.isFinite = false → clamp01 (.num x) = 0) ∧
    (∀ q, x = .fin q → clamp01 (.num x) = min 1 (max 0 q)) := by
  constructor
  · intro h
    cases x <;> simp_all [clamp01, toNumber, JNum.isFinite]
  · rintro q rfl
    simp only [clamp01, toNumber, jsMax, jsMin, min_def, max_def]
    split_ifs <;> first | rfl | linarith

/-- Witness for C1 at the concrete input `2`. -/
theorem clamp01_spec_witness :
    clamp01 (.num (.fin 2)) = min 1 (max 0 2) :=
  (clamp01_spec (.fin 2)).2 2 rfl

/-- C4: `reasons` normalization.  A non-array input becomes the empty array;
an array longer than 8 becomes its first 8 elements in order; an array of at
most 8 elements is unchanged. -/
theorem normReasons_spec (j : Json) :
    (j.isArr = false → normReasons j = .arr []) ∧
    (∀ xs, j = .arr xs → 8 < xs.length → normReasons j = .arr (xs.take 8)) ∧
    (∀ xs, j = .arr xs → xs.length ≤ 8 → normReasons j = j) := by
  refine ⟨?_, ?_, ?_⟩
  · intro h
    cases j <;> simp_all [normReasons, Json.isArr]
  · rintro xs rfl _
    rfl
  · rintro xs rfl h
    simp [normReasons, List.take_of_length_le h]

/-- Witness for C4 at a 9-element array of reasons. -/
theorem normReasons_spec_witness :
    normReasons (.arr [.str "a", .str "b", .str "c", .str "d", .str "e",
                       .str "f", .str "g", .str "h", .str "i"])
      = .arr ([Json.str "a", .str "b", .str "c", .str "d", .str "e",
               .str "f", .str "g", .str "h", .str "i"].take 8) :=
  (normReasons_spec _).2.1 _ rfl (by decide)

/-- C5: a request whose `emails` field is missing or not an array is answered
with `400` and an error message, and no external model call is attempted,
even with a credential configured and a model bound. -/
theorem phishing_invalid_emails_400 (m : String) (reqBody : Json)
    (parse : String → Option Json) (txt : String)
    (h : (jget (processedBody reqBody) "emails").isArr = false) :
    phishingHandler true (some m) reqBody parse txt =
      ⟨400, .obj [("error", .str "Expected \x7b emails: [...] \x7d")], none⟩ := by
  simp [phishingHandler, h]

/-- Witness for C5 at the body `\x7b emails: "not an array" \x7d`. -/
theorem phishing_invalid_emails_400_witness :
    phishingHandler true (some "m") (.obj [("emails", .str "not an array")])
        (fun _ => none) "" =
      ⟨400, .obj [("error", .str "Expected \x7b emails: [...] \x7d")], none⟩ :=
  phishing_invalid_emails_400 "m" _ _ "" rfl

/-- C6: while no model is bound, every `POST /api/phishing` request is
answered with `503` and no external model call is attempted, whatever the
body. -/
theorem phishing_model_unbound_503 (apiKey : Bool) (reqBody : Json)
    (parse : String → Option Json) (txt : String) :
    (phishingHandler apiKey none reqBody parse txt).status = 503 ∧
    (phishingHandler apiKey none reqBody parse txt).call = none := by
  cases apiKey <;> simp [phishingHandler]

/-- C9: the credential and model-bound preconditions are checked before the
body's shape: when the credential is absent or no model is bound the answer
is `503` with no external call, for every body — in particular for a
malformed one. -/
theorem phishing_preconditions_first (apiKey : Bool) (model : Option String)
    (reqBody : Json) (parse : String → Option Json) (txt : String)
    (h : apiKey = false ∨ model = none) :
    (phishingHandler apiKey model reqBody parse txt).status = 503 ∧
    (phishingHandler apiKey model reqBody parse txt).call = none := by
  rcases h with rfl | rfl
  · simp [phishingHandler]
  · cases apiKey <;> simp [phishingHandler]

/-- Witness for C9: a malformed body sent while no model is bound yields
`503`, not `400`. -/
theorem phishing_preconditions_first_witness :
    (phishingHandler true none (.obj [("emails", .str "not an array")])
        (fun _ => none) "").status = 503 ∧
    (phishingHandler true none (.obj [("emails", .str "not an array")])
        (fun _ => none) "").call = none :=
  phishing_preconditions_first true none _ _ "" (Or.inr rfl)

/-- C3: when the upstream response text does not parse as JSON, the handler
answers `502` with `raw` equal to the first 1000 characters of that text (an
upstream call was made, and the handler returns rather than crashing). -/
theorem phishing_upstream_nonjson_502 (m : String) (reqBody : Json)
    (parse : String → Option Json) (txt : String)
    (hb : (jget (processedBody reqBody) "emails").isArr = true)
    (hp : parse txt = none) :
    phishingHandler true (some m) reqBody parse txt =
      ⟨502,
       .obj [("error", .str "Model returned non-JSON"),
             ("raw", .str (txt.take 1000))],
       some (.obj [("emails",
         .arr ((jget (processedBody reqBody) "emails").elems.map compactEmail))])⟩ := by
  simp [phishingHandler, hb, hp]

/-- Witness for C3 at the upstream text `"not json"`. -/
theorem phishing_upstream_nonjson_502_witness :
    phishingHandler true (some "m") (.obj [("emails", .arr [])])
        (fun _ => none) "not json" =
      ⟨502,
       .obj [("error", .str "Model returned non-JSON"),
             ("raw", .str ("not json".take 1000))],
       some (.obj [("emails",
         .arr ((jget (processedBody (.obj [("emails", .arr [])])) "emails").elems.map
           compactEmail))])⟩ :=
  phishing_upstream_nonjson_502 "m" _ _ "not json" rfl rfl

/-- C7: when the upstream response parses as JSON but its `results` field is
not an array, the handler answers `502` and echoes the parsed value back
under `parsed`. -/
theorem phishing_missing_results_502 (m : String) (reqBody : Json)
    (parse : String → Option Json) (txt : String) (p : Json)
    (hb : (jget (processedBody reqBody) "emails").isArr = true)
    (hp : parse txt = some p)
    (hr : (jget p "results").isArr = false) :
    phishingHandler true (some m) reqBody parse txt =
      ⟨502,
       .obj [("error", .str "Malformed JSON from model"), ("parsed", p)],
       some (.obj [("emails",
         .arr ((jget (processedBody reqBody) "emails").elems.map compactEmail))])⟩ := by
  simp [phishingHandler, hb, hp, hr]

/-- Witness for C7 at the upstream JSON value of `"\x7b\"foo\":1\x7d"`. -/
theorem phishing_missing_results_502_witness :
    phishingHandler true (some "m") (.obj [("emails", .arr [])])
        (fun _ => some (.obj [("foo", .num (.fin 1))])) "t" =
      ⟨502,
       .obj [("error", .str "Malformed JSON from model"),
             ("parsed", .obj [("foo", .num (.fin 1))])],
       some (.obj [("emails",
         .arr ((jget (processedBody (.obj [("emails", .arr [])])) "emails").elems.map
           compactEmail))])⟩ :=
  phishing_missing_results_502 "m" _ _ "t" _ rfl rfl rfl

/-- A successful `lookup` means some pair carries the key. -/
theorem lookup_any_eq_true {fs : List (String × Json)} {k : String} {v : Json}
    (h : fs.lookup k = some v) : fs.any (fun kv => kv.1 == k) = true := by
  induction fs with
  | nil => simp at h
  | cons a t ih =>
    obtain ⟨a1, a2⟩ := a
    by_cases hk : a1 = k
    · simp [hk]
    · rw [List.lookup_cons, beq_false_of_ne (fun hh => hk hh.symm)] at h
      simp [beq_false_of_ne hk, ih h]

/-- Replacing the value at key `k` does not change lookups at other keys. -/
theorem lookup_replace_ne {fs : List (String × Json)} {k k' : String} {w : Json}
    (h : k' ≠ k) :
    (fs.map fun kv => if kv.1 = k then (k, w) else kv).lookup k' = fs.lookup k' := by
  induction fs with
  | nil => rfl
  | cons a t ih =>
    obtain ⟨a1, a2⟩ := a
    by_cases ha : a1 = k
    · subst ha
      simp [List.lookup_cons, beq_false_of_ne h, ih]
    · simp [List.lookup_cons, ha, ih]

/-- Replacing the value at a present key `k` makes lookups at `k` return the
new value. -/
theorem lookup_replace_eq {fs : List (String × Json)} {k : String} {v w : Json}
    (h : fs.lookup k = some v) :
    (fs.map fun kv => if kv.1 = k then (k, w) else kv).lookup k = some w := by
  induction fs with
  | nil => simp at h
  | cons a t ih =>
    obtain ⟨a1, a2⟩ := a
    by_cases ha : a1 = k
    · subst ha
      simp [List.lookup_cons]
    · rw [List.lookup_cons, beq_false_of_ne (fun hh => ha hh.symm)] at h
      simp [List.lookup_cons, ha, beq_false_of_ne (fun hh => ha hh.symm), ih h]

/-- Replacing the value at a key preserves the key sequence. -/
theorem keys_replace {fs : List (String × Json)} {k : String} {w : Json} :
    (fs.map fun kv => if kv.1 = k then (k, w) else kv).map Prod.fst
      = fs.map Prod.fst := by
  induction fs with
  | nil => rfl
  | cons a t ih =>
    by_cases ha : a.1 = k <;> simp [ha, ih]

/-- C10: on a successful classification response only the `results` field is
replaced (by the normalized results, in order); every other top-level field
of the parsed upstream object is returned unchanged, the key sequence is
preserved, and every normalized element is an object of exactly the four
fields `id`, `isPhishing`, `confidence`, `reasons`. -/
theorem phishing_success_frame (m : String) (reqBody : Json)
    (parse : String → Option Json) (txt : String)
    (fs : List (String × Json)) (rs : List Json)
    (hb : (jget (processedBody reqBody) "emails").isArr = true)
    (hp : parse txt = some (.obj fs))
    (hr : fs.lookup "results" = some (.arr rs)) :
    (phishingHandler true (some m) reqBody parse txt).status = 200 ∧
    (∃ gs, (phishingHandler true (some m) reqBody parse txt).body = .obj gs ∧
      gs.map Prod.fst = fs.map Prod.fst ∧
      (∀ k, k ≠ "results" → gs.lookup k = fs.lookup k) ∧
      gs.lookup "results" = some (.arr (rs.map normalizeResult))) ∧
    (∀ r ∈ rs, ∃ a b c d, normalizeResult r =
      .obj [("id", a), ("isPhishing", b), ("confidence", c), ("reasons", d)]) := by
  have hres : jget (.obj fs) "results" = .arr rs := by simp [jget, hr]
  have hrun : phishingHandler true (some m) reqBody parse txt =
      ⟨200,
       setField (.obj fs) "results" (.arr (rs.map normalizeResult)),
       some (.obj [("emails",
         .arr ((jget (processedBody reqBody) "emails").elems.map compactEmail))])⟩ := by
    have h1 : truthy (Json.obj fs) = true := rfl
    have h2 : (Json.arr rs).isArr = true := rfl
    have h3 : (Json.arr rs).elems = rs := rfl
    simp [phishingHandler, hb, hp, hres, h1, h2, h3]
  refine ⟨by rw [hrun], ?_, ?_⟩
  · refine ⟨fs.map fun kv => if kv.1 = "results" then ("results", .arr (rs.map normalizeResult)) else kv, ?_, ?_, ?_, ?_⟩
    · rw [hrun]
      simp [setField, lookup_any_eq_true hr]
    · exact keys_replace
    · intro k hk
      exact lookup_replace_ne hk
    · exact lookup_replace_eq hr
  · intro r _
    exact ⟨_, _, _, _, rfl⟩

/-- Witness for C10 at a parsed object with one extra field and one result. -/
theorem phishing_success_frame_witness :
    (phishingHandler true (some "m") (.obj [("emails", .arr [])])
        (fun _ => some (.obj [("foo", .num (.fin 1)), ("results", .arr [.obj []])])) "t").status
      = 200 :=
  (phishing_success_frame "m" (.obj [("emails", .arr [])])
    (fun _ => some (.obj [("foo", .num (.fin 1)), ("results", .arr [.obj []])])) "t"
    [("foo", .num (.fin 1)), ("results", .arr [.obj []])] [.obj []]
    rfl rfl rfl).1

/-- C2: when the preferred model fails its probe and the second fallback
candidate is the first to succeed, `initModel` probes exactly the preferred
name and the first two candidates (no candidate after the success is
probed), and both `MODEL_IN_USE` and the model handle end up bound to the
second candidate. -/
theorem initModel_second_candidate (probe : String → Bool) (p : String)
    (hne : p ≠ "")
    (hp : probe p = false)
    (h1 : probe "gemini-1.5-flash-latest" = false)
    (h2 : probe "gemini-1.5-flash" = true) :
    initModel probe true (some p) =
      ([p, "gemini-1.5-flash-latest", "gemini-1.5-flash"],
       [⟨some p, none⟩,
        ⟨some "gemini-1.5-flash", none⟩,
        ⟨some "gemini-1.5-flash", some "gemini-1.5-flash"⟩]) := by
  simp [initModel, initLoop, CANDIDATE_MODELS, tryModel, hne, hp, h1, h2]

/-- Witness for C2 with a probe oracle on which only the second candidate
succeeds. -/
theorem initModel_second_candidate_witness :
    initModel (fun s => s == "gemini-1.5-flash") true (some "requested-model") =
      (["requested-model", "gemini-1.5-flash-latest", "gemini-1.5-flash"],
       [⟨some "requested-model", none⟩,
        ⟨some "gemini-1.5-flash", none⟩,
        ⟨some "gemini-1.5-flash", some "gemini-1.5-flash"⟩]) :=
  initModel_second_candidate _ "requested-model" (by decide) (by decide) (by decide) (by decide)

/-- The candidate loop either produces no state change (every probe failed)
or exactly the two assignments of one success. -/
theorem initLoop_shape (probe : String → Bool) (cands : List String) (s : ModelState) :
    (initLoop probe cands s).2 = [] ∨
    ∃ c, (initLoop probe cands s).2 =
      [{ s with modelInUse := some c }, ⟨some c, some c⟩] := by
  induction cands with
  | nil => left; rfl
  | cons c rest ih =>
    by_cases hc : probe c = true
    · right
      exact ⟨c, by simp [initLoop, tryModel, hc]⟩
    · rw [Bool.not_eq_true] at hc
      simpa [initLoop, tryModel, hc] using ih

/-- When every probe fails the candidate loop changes no state. -/
theorem initLoop_all_fail (probe : String → Bool) (h : ∀ c, probe c = false)
    (cands : List String) (s : ModelState) :
    (initLoop probe cands s).2 = [] := by
  induction cands with
  | nil => rfl
  | cons c rest ih => simp [initLoop, tryModel, h c, ih]

/-- The `initModel` state trace starts unbound and is one of three shapes:
unchanged, preferred-model success, or candidate success. -/
theorem initModel_trace_shape (probe : String → Bool) (genAI : Bool) (pref : Option String) :
    (initModel probe genAI pref).2 = [⟨pref, none⟩] ∨
    (∃ m, (initModel probe genAI pref).2 = [⟨pref, none⟩, ⟨pref, some m⟩]) ∨
    (∃ c, (initModel probe genAI pref).2 = [⟨pref, none⟩, ⟨some c, none⟩, ⟨some c, some c⟩]) := by
  cases genAI with
  | false => left; rfl
  | true =>
    cases pref with
    | none =>
      rcases initLoop_shape probe CANDIDATE_MODELS ⟨none, none⟩ with h | ⟨c, h⟩
      · left; simp [initModel, h]
      · right; right; exact ⟨c, by simp [initModel, h]⟩
    | some p =>
      by_cases hp : p = ""
      · subst hp
        rcases initLoop_shape probe CANDIDATE_MODELS ⟨some "", none⟩ with h | ⟨c, h⟩
        · left; simp [initModel, h]
        · right; right; exact ⟨c, by simp [initModel, h]⟩
      · by_cases hq : probe p = true
        · right; left; exact ⟨p, by simp [initModel, hp, tryModel, hq]⟩
        · rw [Bool.not_eq_true] at hq
          rcases initLoop_shape probe CANDIDATE_MODELS ⟨some p, none⟩ with h | ⟨c, h⟩
          · left; simp [initModel, hp, tryModel, hq, h]
          · right; right; exact ⟨c, by simp [initModel, hp, tryModel, hq, h]⟩

/-- C8: over a process lifetime the model handle only transitions
`UNBOUND → BOUND`: along the `initModel` state trace every transition leaves
a state whose handle is still unbound, any state with a bound handle is the
final one (so handle and in-use identifier, once set, are never re-assigned),
and when every probe fails the state never changes at all. -/
theorem model_handle_bound_once (probe : String → Bool) (genAI : Bool) (pref : Option String) :
    ((initModel probe genAI pref).2.Chain' fun s _ => s.model = none) ∧
    (∀ s ∈ (initModel probe genAI pref).2, s.model ≠ none →
      (initModel probe genAI pref).2.getLast? = some s) ∧
    ((∀ c, probe c = false) → (initModel probe genAI pref).2 = [⟨pref, none⟩]) := by
  refine ⟨?_, ?_, ?_⟩
  · rcases initModel_trace_shape probe genAI pref with h | ⟨m, h⟩ | ⟨c, h⟩ <;>
      rw [h] <;> simp [List.chain'_cons]
  · rcases initModel_trace_shape probe genAI pref with h | ⟨m, h⟩ | ⟨c, h⟩ <;>
      rw [h] <;> intro s hs hm <;> simp at hs
    · exact absurd (hs ▸ rfl) hm
    · rcases hs with rfl | rfl
      · exact absurd rfl hm
      · rfl
    · rcases hs with rfl | rfl | rfl
      · exact absurd rfl hm
      · exact absurd rfl hm
      · rfl
  · intro h
    cases genAI with
    | false => rfl
    | true =>
      cases pref with
      | none => simp [initModel, initLoop_all_fail probe h]
      | some p =>
        by_cases hp : p = ""
        · simp [initModel, hp, initLoop_all_fail probe h]
        · simp [initModel, hp, tryModel, h p, initLoop_all_fail probe h]

/-- Witness for C8 with the all-failing probe oracle. -/
theorem model_handle_bound_once_witness :
    ((initModel (fun _ => false) true none).2.Chain' fun s _ => s.model = none) ∧
    (initModel (fun _ => false) true none).2 = [⟨none, none⟩] :=
  ⟨(model_handle_bound_once (fun _ => false) true none).1,
   (model_handle_bound_once (fun _ => false) true none).2.2 (fun _ => rfl)⟩
